import Mathlib

/-!
Verification development for the diggin-ui-system component library.

We shallowly embed the library's logic surface in Lean:
* responsive utilities (`src/utils/responsive/index.ts`),
* theme utilities (`src/index.ts`),
* accessibility utilities: focus trap, contrast ratio, WCAG predicate
  (`src/utils/accessibility/index.ts`),
* icon color resolution (`src/utils/iconLoader.ts`, `Icons.tsx`),
* the Button component's render output (`Button.tsx`).

JavaScript `undefined`/`null` is modelled with `Option`; JS numbers are
idealised as real numbers, with `NaN` modelled as `Option.none` where the
source can produce it; DOM state that the code reads or writes (the
`data-theme` attribute, the event-listener registry, the focused element)
is passed explicitly.
-/

-- ================================================================
-- Responsive utilities (src/utils/responsive/index.ts)
-- ================================================================

/-- The four named breakpoints, in increasing width order. -/
inductive Breakpoint where
  | mobile
  | tablet
  | desktop
  | wide
deriving DecidableEq

/-- `BREAKPOINTS` table: pixel threshold of each breakpoint. -/
def BREAKPOINTS : Breakpoint → ℕ
  | .mobile => 320
  | .tablet => 768
  | .desktop => 1024
  | .wide => 1440

/-- Index of a breakpoint in the order mobile < tablet < desktop < wide. -/
def Breakpoint.idx : Breakpoint → ℕ
  | .mobile => 0
  | .tablet => 1
  | .desktop => 2
  | .wide => 3

/-- `ResponsiveValue<T>`: a partial mapping from breakpoints to values;
an absent field models an `undefined` entry. -/
structure ResponsiveValue (T : Type) where
  mobile : Option T
  tablet : Option T
  desktop : Option T
  wide : Option T

/-- Look up the entry of a `ResponsiveValue` at a breakpoint. -/
def ResponsiveValue.entry {T : Type} (V : ResponsiveValue T) : Breakpoint → Option T
  | .mobile => V.mobile
  | .tablet => V.tablet
  | .desktop => V.desktop
  | .wide => V.wide

/-- `getResponsiveValue` (object branch): the per-breakpoint `switch` from the
source, with `??` fallback chains modelled by `Option.orElse`.  The source also
accepts a plain (non-object) `T` and returns it unchanged; that overload is
outside the partial-mapping claims and is not modelled. -/
def getResponsiveValue {T : Type} (responsiveValue : ResponsiveValue T)
    (currentBreakpoint : Breakpoint) : Option T :=
  match currentBreakpoint with
  | .wide => responsiveValue.wide <|> responsiveValue.desktop <|> responsiveValue.tablet <|> responsiveValue.mobile
  | .desktop => responsiveValue.desktop <|> responsiveValue.tablet <|> responsiveValue.mobile
  | .tablet => responsiveValue.tablet <|> responsiveValue.mobile
  | .mobile => responsiveValue.mobile

/-- All breakpoints in decreasing width order. -/
def breakpointsDesc : List Breakpoint :=
  [Breakpoint.wide, Breakpoint.desktop, Breakpoint.tablet, Breakpoint.mobile]

/-- The breakpoints at or below `b`, in decreasing width order.  This encodes
the spec's "walk downward from the current breakpoint" order, defined from the
breakpoint order itself rather than from the source's `switch`. -/
def breakpointsAtOrBelow (b : Breakpoint) : List Breakpoint :=
  breakpointsDesc.filter (fun x => decide (x.idx ≤ b.idx))

/-- A browser window, reduced to the fields the source reads. -/
structure BrowserWindow where
  innerWidth : ℕ
  innerHeight : ℕ

/-- `useBreakpoint`: `none` models `typeof window === 'undefined'` (SSR). -/
def useBreakpoint (w : Option BrowserWindow) : Breakpoint :=
  match w with
  | none => .mobile
  | some w =>
    if BREAKPOINTS .wide ≤ w.innerWidth then .wide
    else if BREAKPOINTS .desktop ≤ w.innerWidth then .desktop
    else if BREAKPOINTS .tablet ≤ w.innerWidth then .tablet
    else .mobile

/-- `getViewportSize`: `none` models a missing `window` (SSR). -/
def getViewportSize (w : Option BrowserWindow) : ℕ × ℕ :=
  match w with
  | none => (0, 0)
  | some w => (w.innerWidth, w.innerHeight)

-- ================================================================
-- Theme utilities (src/index.ts)
-- ================================================================

/-- The three themes accepted by `setTheme`. -/
inductive Theme where
  | light
  | dark
  | highContrast
deriving DecidableEq

/-- The `data-theme` attribute string for a theme. -/
def Theme.attrValue : Theme → String
  | .light => "light"
  | .dark => "dark"
  | .highContrast => "high-contrast"

/-- The `data-theme` attribute of `document.documentElement`: `none` models an
absent attribute (`getAttribute` returning `null`). -/
abbrev ThemeAttr := Option String

/-- `getTheme`: `getAttribute('data-theme') || 'light'`.  JS `||` also replaces
an empty string (falsy) by the default. -/
def getTheme (attr : ThemeAttr) : String :=
  match attr with
  | none => "light"
  | some s => if s = "" then "light" else s

/-- `setAttribute('data-theme', theme)` on an arbitrary string. -/
def setThemeAttr (theme : String) (_attr : ThemeAttr) : ThemeAttr :=
  some theme

/-- `setTheme`, whose parameter type restricts to the three theme names. -/
def setTheme (theme : Theme) (attr : ThemeAttr) : ThemeAttr :=
  setThemeAttr theme.attrValue attr

/-- `toggleTheme`: returns the new theme string and the updated attribute. -/
def toggleTheme (attr : ThemeAttr) : String × ThemeAttr :=
  let currentTheme := getTheme attr
  let newTheme := if currentTheme = "light" then "dark" else "light"
  (newTheme, setThemeAttr newTheme attr)

-- ================================================================
-- Focus trap: event-listener registry (src/utils/accessibility/index.ts)
-- ================================================================

/-- The DOM state relevant to listener registration on the trap's container:
the registry of `(event type, listener function)` pairs, plus a counter that
allocates a fresh identity for each `Function.prototype.bind` call (in JS,
every call to `.bind` returns a new function object). -/
structure DomState where
  nextFunId : ℕ
  listeners : List (String × ℕ)
deriving DecidableEq

/-- `this.handleKeydown.bind(this)`: allocates a fresh function identity. -/
def bindHandler (s : DomState) : ℕ × DomState :=
  (s.nextFunId, ⟨s.nextFunId + 1, s.listeners⟩)

/-- `addEventListener`: registers the pair unless the identical pair is
already registered (the DOM deduplicates identical type/listener pairs). -/
def addEventListener (etype : String) (f : ℕ) (s : DomState) : DomState :=
  if (etype, f) ∈ s.listeners then s else ⟨s.nextFunId, s.listeners ++ [(etype, f)]⟩

/-- `removeEventListener`: removes the registered pair with the same function
identity, if any; otherwise does nothing. -/
def removeEventListener (etype : String) (f : ℕ) (s : DomState) : DomState :=
  ⟨s.nextFunId, s.listeners.erase (etype, f)⟩

/-- `FocusTrap.bindEvents` (run by the constructor):
`this.element.addEventListener('keydown', this.handleKeydown.bind(this))`.
Returns the identity of the bound listener together with the new state. -/
def focusTrapBindEvents (s : DomState) : ℕ × DomState :=
  let bound := bindHandler s
  (bound.1, addEventListener "keydown" bound.1 bound.2)

/-- `FocusTrap.deactivate`:
`this.element.removeEventListener('keydown', this.handleKeydown.bind(this))`.
Note that `.bind` here allocates a fresh function identity again. -/
def focusTrapDeactivate (s : DomState) : DomState :=
  let bound := bindHandler s
  removeEventListener "keydown" bound.1 bound.2

/-- A container element's DOM state before any trap is constructed. -/
def freshDom : DomState := ⟨0, []⟩

-- ================================================================
-- Focus trap: keydown handling
-- ================================================================

/-- Focusable elements are identified by their object identity. -/
abbrev Elem := ℕ

/-- The trap fields read by `handleKeydown`. -/
structure TrapState where
  focusableElements : List Elem
  firstFocusable : Option Elem
  lastFocusable : Option Elem
deriving DecidableEq

/-- `updateFocusableElements` applied to a query result `es`:
`firstFocusable = es[0] || null`, `lastFocusable = es[es.length - 1] || null`. -/
def updateFocusableElements (es : List Elem) : TrapState :=
  ⟨es, es.head?, es.getLast?⟩

/-- The fields of a `KeyboardEvent` read by the trap. -/
structure KeyEvent where
  key : String
  shiftKey : Bool
deriving DecidableEq

/-- The observable effect of one `handleKeydown` call: whether
`event.preventDefault()` ran, and which element `.focus()` was called on
(`none` when no focus call happened). -/
structure KeydownResult where
  preventDefault : Bool
  focusTarget : Option Elem
deriving DecidableEq

/-- `FocusTrap.handleKeydown`, as a pure function of the trap state, the
current `document.activeElement`, and the event. -/
def handleKeydown (t : TrapState) (activeElement : Option Elem) (e : KeyEvent) : KeydownResult :=
  if e.key ≠ "Tab" then ⟨false, none⟩
  else if t.focusableElements.isEmpty then ⟨true, none⟩
  else if e.shiftKey then
    if activeElement = t.firstFocusable then ⟨true, t.lastFocusable⟩ else ⟨false, none⟩
  else
    if activeElement = t.lastFocusable then ⟨true, t.firstFocusable⟩ else ⟨false, none⟩

-- ================================================================
-- Contrast ratio and WCAG predicate
-- ================================================================

/-- JS `\w` character class: ASCII letters, digits, underscore. -/
def wordChar (c : Char) : Bool :=
  c.isAlphanum || c = '_'

/-- Global matching of the regex `/\w\w/g`: scan left to right, emitting each
non-overlapping pair of word characters. -/
def matchPairs : List Char → List (Char × Char)
  | a :: b :: rest =>
    if wordChar a && wordChar b then (a, b) :: matchPairs rest
    else matchPairs (b :: rest)
  | _ => []

/-- Value of a hexadecimal digit character. -/
def hexDigitVal (c : Char) : Option ℕ :=
  if '0' ≤ c ∧ c ≤ '9' then some (c.toNat - '0'.toNat)
  else if 'a' ≤ c ∧ c ≤ 'f' then some (c.toNat - 'a'.toNat + 10)
  else if 'A' ≤ c ∧ c ≤ 'F' then some (c.toNat - 'A'.toNat + 10)
  else none

/-- Longest leading run of hex digits, as a number; `none` models `NaN` when
no leading digit exists. -/
def parseIntHexCore (cs : List Char) : Option ℕ :=
  let ds := cs.takeWhile (fun c => (hexDigitVal c).isSome)
  if ds.isEmpty then none
  else some (ds.foldl (fun a c => a * 16 + (hexDigitVal c).getD 0) 0)

/-- JS `parseInt(s, 16)` restricted to the word-character strings produced by
`matchPairs` (so no leading whitespace or sign can occur): strips an optional
`0x`/`0X` prefix, then parses the longest leading run of hex digits; `none`
models `NaN`. -/
def parseIntHex : List Char → Option ℕ
  | '0' :: 'x' :: rest => parseIntHexCore rest
  | '0' :: 'X' :: rest => parseIntHexCore rest
  | cs => parseIntHexCore cs

/-- sRGB gamma correction applied to one channel:
`c <= 0.03928 ? c / 12.92 : Math.pow((c + 0.055) / 1.055, 2.4)`. -/
noncomputable def linearize (c : ℝ) : ℝ :=
  if c ≤ 0.03928 then c / 12.92 else ((c + 0.055) / 1.055) ^ (2.4 : ℝ)

/-- One entry of `hex.match(/\w\w/g).map(x => parseInt(x, 16) / 255)`;
`none` models `NaN` from a failed parse. -/
noncomputable def channelOf (p : Char × Char) : Option ℝ :=
  (parseIntHex [p.1, p.2]).map (fun n => (n : ℝ) / 255)

/-- `getLuminance` from `getContrastRatio`: matches `/\w\w/g` (falling back to
`[0, 0, 0]` when the match is `null`), converts each pair to a channel in
`[0, 1]`, gamma-corrects, destructures the first three entries (a missing
entry is `undefined`, which makes the weighted sum `NaN`, modelled `none`),
and returns the WCAG relative luminance. -/
noncomputable def getLuminance (cs : List Char) : Option ℝ :=
  let rgb : List (Option ℝ) :=
    match matchPairs cs with
    | [] => [some 0, some 0, some 0]
    | pairs => pairs.map channelOf
  match rgb.map (Option.map linearize) with
  | some r :: some g :: some b :: _ => some (0.2126 * r + 0.7152 * g + 0.0722 * b)
  | _ => none

/-- `getContrastRatio`: `(lightest + 0.05) / (darkest + 0.05)` over the two
luminances; `none` models a `NaN` result (JS `Math.max`/`Math.min` and
arithmetic propagate `NaN`). -/
noncomputable def getContrastRatio (color1 color2 : List Char) : Option ℝ :=
  match getLuminance color1, getLuminance color2 with
  | some l1, some l2 => some ((max l1 l2 + 0.05) / (min l1 l2 + 0.05))
  | _, _ => none

/-- WCAG conformance level. -/
inductive WCAGLevel where
  | AA
  | AAA
deriving DecidableEq

/-- Text size category. -/
inductive TextSize where
  | normal
  | large
deriving DecidableEq

/-- `meetsWCAGRequirement`: compares the contrast ratio against the per-branch
constant from the source; a `NaN` ratio fails every JS `>=` comparison, hence
the `False` branch. -/
noncomputable def meetsWCAGRequirement (color1 color2 : List Char)
    (level : WCAGLevel) (sz : TextSize) : Prop :=
  match getContrastRatio color1 color2 with
  | none => False
  | some ratio =>
    match level with
    | .AAA => match sz with
      | .large => (4.5 : ℝ) ≤ ratio
      | .normal => (7 : ℝ) ≤ ratio
    | .AA => match sz with
      | .large => (3 : ℝ) ≤ ratio
      | .normal => (4.5 : ℝ) ≤ ratio

/-- The WCAG threshold table as the spec states it (§4.5): AA 4.5 normal /
3 large, AAA 7 normal / 4.5 large. -/
noncomputable def wcagThreshold : WCAGLevel → TextSize → ℝ
  | .AA, .normal => 4.5
  | .AA, .large => 3
  | .AAA, .normal => 7
  | .AAA, .large => 4.5

-- ================================================================
-- Icon color resolution (src/utils/iconLoader.ts, Icons.tsx)
-- ================================================================

/-- The keys of the `AVAILABLE_COLORS` design-token palette. -/
def AVAILABLE_COLORS : List String :=
  ["azure-500", "secondary-500",
   "success-500", "warning-500", "error-500", "info-500",
   "neutral-900", "neutral-700", "neutral-500", "neutral-300", "neutral-0",
   "interactive-primary", "interactive-secondary",
   "text-primary", "text-secondary", "text-tertiary",
   "currentColor"]

/-- `getColorVariable`: `currentColor` passes through, everything else is
wrapped as a CSS variable reference. -/
def getColorVariable (colorToken : String) : String :=
  if colorToken = "currentColor" then "currentColor"
  else "var(--color-" ++ colorToken ++ ")"

/-- Models `color.startsWith('var(')`. -/
def startsWithVar (s : String) : Bool :=
  decide (s.data.take 4 = ['v', 'a', 'r', '('])

/-- The color string `BaseIcon` ends up using: `currentColor` keeps the normal
CSS class, a `var(`-prefixed string is used as-is, anything else goes through
`getColorVariable`. -/
def baseIconResolvedColor (color : String) : String :=
  if color = "currentColor" then "currentColor"
  else if startsWithVar color then color
  else getColorVariable color

-- ================================================================
-- Button component (src/components/atoms/Button/Button.tsx)
-- ================================================================

/-- `variant` prop. -/
inductive BtnVariant where
  | primary
  | secondary
  | text
deriving DecidableEq

/-- `size` prop. -/
inductive BtnSize where
  | small
  | medium
  | large
deriving DecidableEq

/-- `iconPosition` prop. -/
inductive IconPosition where
  | left
  | right
deriving DecidableEq

/-- `ButtonProps` after default application.  `icon` is a supplied React icon
element identified by its identity (`none` when absent); `rest` holds the
remaining HTML/ARIA attributes, which the source spreads onto the `<button>`
element after its own attributes. -/
structure ButtonProps where
  variant : BtnVariant
  size : BtnSize
  loading : Bool
  iconPosition : IconPosition
  icon : Option ℕ
  iconColor : Option String
  iconSize : ℕ
  fullWidth : Bool
  disabled : Bool
  className : String
  children : Bool
  rest : List (String × String)
deriving DecidableEq

/-- What an icon slot renders: the loading spinner (with the size/color the
source passes to `LoaderIcon`) or the supplied icon element (possibly cloned
with injected props, which preserves its identity). -/
inductive RenderedIcon where
  | loader (size : ℕ) (color : Option String)
  | custom (id : ℕ)
deriving DecidableEq

/-- `renderIcon`: while loading, always the spinner; otherwise the supplied
element, or nothing when there is none. -/
def renderIcon (loading : Bool) (iconSize : ℕ) (iconColor : Option String)
    (iconElement : Option ℕ) : Option RenderedIcon :=
  if loading then some (RenderedIcon.loader iconSize iconColor)
  else match iconElement with
    | none => none
    | some i => some (RenderedIcon.custom i)

/-- The rendered `<button>` element, reduced to what the claims observe:
the `disabled` flag, the attribute list in JSX spread order (a later entry
with the same key overrides an earlier one), and the three child slots. -/
structure RenderedButton where
  disabledAttr : Bool
  attrs : List (String × String)
  leftIcon : Option RenderedIcon
  contentShown : Bool
  rightIcon : Option RenderedIcon
deriving DecidableEq

/-- The Button render function. -/
def renderButton (p : ButtonProps) : RenderedButton :=
  let hasIcon := p.icon.isSome || p.loading
  let showLeftIcon := hasIcon && (p.iconPosition == IconPosition.left)
  let showRightIcon := hasIcon && (p.iconPosition == IconPosition.right)
  let ariaAttrs :=
    (if p.disabled || p.loading then [("aria-disabled", "true")] else [])
      ++ (if p.loading then [("aria-busy", "true")] else [])
  ⟨p.disabled || p.loading,
   ariaAttrs ++ p.rest,
   if showLeftIcon then renderIcon p.loading p.iconSize p.iconColor p.icon else none,
   p.children,
   if showRightIcon then renderIcon p.loading p.iconSize p.iconColor p.icon else none⟩

/-- Final value of an attribute after JSX spread merging: the last entry with
the given key wins. -/
def getAttr (attrs : List (String × String)) (key : String) : Option String :=
  attrs.foldl (fun acc a => if a.1 == key then some a.2 else acc) none

/-- A loading button whose rest props override `aria-busy`. -/
def buttonPropsAriaOverride : ButtonProps :=
  ⟨BtnVariant.primary, BtnSize.medium, true, IconPosition.left, none, none, 18,
   false, false, "", true, [("aria-busy", "false")]⟩

/-- A loading button with an icon supplied and innocuous rest props. -/
def buttonPropsPlain : ButtonProps :=
  ⟨BtnVariant.primary, BtnSize.medium, true, IconPosition.left, some 7, none, 18,
   false, false, "", true, [("type", "button")]⟩

-- ================================================================
-- Theorems
-- ================================================================

/-- C1: for every partial responsive mapping `V` and breakpoint `b`,
`getResponsiveValue V b` returns the nearest defined entry at or below `b`
in the order mobile < tablet < desktop < wide, and when no entry is defined
at or below `b` it returns `V`'s mobile entry (which is then undefined). -/
theorem getResponsiveValue_nearest_defined {T : Type} (V : ResponsiveValue T)
    (b : Breakpoint) :
    getResponsiveValue V b =
      match (breakpointsAtOrBelow b).findSome? V.entry with
      | some v => some v
      | none => V.mobile := by
  rcases V with ⟨m, t, d, w⟩
  cases b <;> cases m <;> cases t <;> cases d <;> cases w <;> rfl

/-- C8: when no `window` object exists (SSR), `useBreakpoint` returns
`mobile` and `getViewportSize` returns width 0, height 0. -/
theorem ssr_defaults :
    useBreakpoint none = Breakpoint.mobile ∧ getViewportSize none = (0, 0) :=
  ⟨rfl, rfl⟩

/-- C4: for every current state of the `data-theme` attribute, `toggleTheme`
sets and returns "dark" when the current theme is "light" and "light"
otherwise, and the new theme is never "high-contrast". -/
theorem toggleTheme_spec (attr : ThemeAttr) :
    ((toggleTheme attr).1 = if getTheme attr = "light" then "dark" else "light") ∧
    (toggleTheme attr).2 = some (toggleTheme attr).1 ∧
    (toggleTheme attr).1 ≠ "high-contrast" := by
  by_cases h : getTheme attr = "light" <;>
    simp [toggleTheme, setThemeAttr, h]

/-- C10: for every theme `t`, `setTheme t` followed by `getTheme` returns
`t`'s attribute string; and when the attribute has never been set,
`getTheme` returns "light". -/
theorem theme_roundtrip :
    (∀ (t : Theme) (attr : ThemeAttr), getTheme (setTheme t attr) = t.attrValue) ∧
    getTheme none = "light" := by
  refine ⟨fun t attr => ?_, rfl⟩
  cases t <;> rfl

/-- C2 (code bug): constructing a `FocusTrap` on a fresh container and then
calling `deactivate()` leaves the listener registry unchanged — in
particular the keydown listener registered by the constructor is still
attached — because `deactivate` passes a freshly `.bind`-created function to
`removeEventListener`, which matches no registered listener. -/
theorem focusTrap_deactivate_keeps_listener :
    (focusTrapDeactivate (focusTrapBindEvents freshDom).2).listeners
        = (focusTrapBindEvents freshDom).2.listeners ∧
    ("keydown", (focusTrapBindEvents freshDom).1)
        ∈ (focusTrapDeactivate (focusTrapBindEvents freshDom).2).listeners := by
  constructor <;> decide

/-- C5: for an active trap over a non-empty focusable list, Shift+Tab while
the first element is active prevents the default traversal and focuses the
last element, and Tab while the last element is active prevents the default
traversal and focuses the first element. -/
theorem focusTrap_wraps (es : List Elem) (h : es ≠ []) :
    handleKeydown (updateFocusableElements es) es.head? ⟨"Tab", true⟩
        = ⟨true, es.getLast?⟩ ∧
    handleKeydown (updateFocusableElements es) es.getLast? ⟨"Tab", false⟩
        = ⟨true, es.head?⟩ := by
  have hne : es.isEmpty = false := by
    cases es with
    | nil => exact absurd rfl h
    | cons a l => rfl
  constructor <;> simp [handleKeydown, updateFocusableElements, hne]

/-- Witness for C5 at the concrete trap [1, 2, 3]. -/
theorem focusTrap_wraps_witness :
    handleKeydown (updateFocusableElements [1, 2, 3]) (some 1) ⟨"Tab", true⟩
        = ⟨true, some 3⟩ ∧
    handleKeydown (updateFocusableElements [1, 2, 3]) (some 3) ⟨"Tab", false⟩
        = ⟨true, some 1⟩ := by
  have h := focusTrap_wraps [1, 2, 3] (by decide)
  simpa using h

/-- Gamma correction preserves nonnegativity. -/
theorem linearize_nonneg (c : ℝ) (h : 0 ≤ c) : 0 ≤ linearize c := by
  unfold linearize
  split
  · exact div_nonneg h (by norm_num)
  · exact Real.rpow_nonneg (div_nonneg (by linarith) (by norm_num)) _

/-- A successfully parsed channel value is nonnegative. -/
theorem channelOf_nonneg (p : Char × Char) (q : ℝ) (h : channelOf p = some q) :
    0 ≤ q := by
  unfold channelOf at h
  rcases hn : parseIntHex [p.1, p.2] with _ | n
  · rw [hn] at h; simp at h
  · rw [hn] at h
    simp at h
    rw [← h]
    positivity

/-- A non-`NaN` luminance is nonnegative. -/
theorem getLuminance_nonneg (cs : List Char) (l : ℝ)
    (h : getLuminance cs = some l) : 0 ≤ l := by
  have hlin : ∀ (o : Option ℝ) (x : ℝ), Option.map linearize o = some x →
      (∃ q, o = some q ∧ x = linearize q) := by
    intro o x hx
    rcases o with _ | q
    · simp at hx
    · exact ⟨q, rfl, (Option.some_inj.mp hx).symm⟩
  unfold getLuminance at h
  rcases hp : matchPairs cs with _ | ⟨p1, ps⟩
  · rw [hp] at h
    simp only [List.map_cons, List.map_nil, Option.map_some] at h
    rw [← Option.some_inj.mp h]
    have h0 : (0:ℝ) ≤ linearize 0 := linearize_nonneg 0 le_rfl
    positivity
  · rw [hp] at h
    rcases ps with _ | ⟨p2, ps2⟩
    · rcases hc1 : Option.map linearize (channelOf p1) with _ | r <;>
        simp only [List.map_cons, List.map_nil, hc1] at h <;>
        exact Option.noConfusion h
    · rcases ps2 with _ | ⟨p3, ps3⟩
      · rcases hc1 : Option.map linearize (channelOf p1) with _ | r <;>
          rcases hc2 : Option.map linearize (channelOf p2) with _ | g <;>
          simp only [List.map_cons, List.map_nil, hc1, hc2] at h <;>
          exact Option.noConfusion h
      · rcases hc1 : Option.map linearize (channelOf p1) with _ | r <;>
          rcases hc2 : Option.map linearize (channelOf p2) with _ | g <;>
          rcases hc3 : Option.map linearize (channelOf p3) with _ | b <;>
          simp only [List.map_cons, hc1, hc2, hc3] at h <;>
          try exact Option.noConfusion h
        obtain ⟨q1, hq1, hr⟩ := hlin _ _ hc1
        obtain ⟨q2, hq2, hg⟩ := hlin _ _ hc2
        obtain ⟨q3, hq3, hb⟩ := hlin _ _ hc3
        have n1 := linearize_nonneg q1 (channelOf_nonneg p1 q1 hq1)
        have n2 := linearize_nonneg q2 (channelOf_nonneg p2 q2 hq2)
        have n3 := linearize_nonneg q3 (channelOf_nonneg p3 q3 hq3)
        rw [← Option.some_inj.mp h, hr, hg, hb]
        linarith

/-- C9 counterexample: "zz" is a color string, yet `getContrastRatio`
applied to it twice yields `NaN` (modelled `none`), not 1: the pair "zz"
parses to `NaN`, which propagates through the luminance and the ratio. -/
theorem getContrastRatio_nan_counterexample :
    getContrastRatio ['z', 'z'] ['z', 'z'] = none ∧
    getContrastRatio ['z', 'z'] ['z', 'z'] ≠ some 1 := by
  refine ⟨rfl, ?_⟩
  rw [show getContrastRatio ['z', 'z'] ['z', 'z'] = none from rfl]
  simp

/-- C9 (amended): for every color string whose luminance computation yields a
number (no `NaN`), the contrast ratio of the color with itself is 1. -/
theorem getContrastRatio_self_one (c : List Char)
    (h : (getLuminance c).isSome = true) :
    getContrastRatio c c = some 1 := by
  rcases hl : getLuminance c with _ | l
  · rw [hl] at h; simp at h
  · have hnn : (0:ℝ) ≤ l := getLuminance_nonneg c l hl
    have hpos : (0:ℝ) < l + 0.05 := by norm_num; linarith
    unfold getContrastRatio
    rw [hl]
    simp only [max_self, min_self]
    rw [div_self (ne_of_gt hpos)]

/-- Witness for C9 at the valid 6-digit hex color "ff0000". -/
theorem getContrastRatio_self_witness :
    getContrastRatio ['f', 'f', '0', '0', '0', '0'] ['f', 'f', '0', '0', '0', '0']
      = some 1 :=
  getContrastRatio_self_one ['f', 'f', '0', '0', '0', '0'] rfl

/-- C6: `meetsWCAGRequirement` holds exactly when the computed contrast ratio
is a number at least the threshold from the table: AA 4.5 normal / 3 large,
AAA 7 normal / 4.5 large. -/
theorem meetsWCAG_iff_threshold (color1 color2 : List Char)
    (level : WCAGLevel) (sz : TextSize) :
    meetsWCAGRequirement color1 color2 level sz ↔
      ∃ r, getContrastRatio color1 color2 = some r ∧ wcagThreshold level sz ≤ r := by
  unfold meetsWCAGRequirement
  rcases hr : getContrastRatio color1 color2 with _ | r
  · simp
  · cases level <;> cases sz <;> simp [wcagThreshold]

/-- Folding the attribute-merge step over a list that never mentions the key
leaves the accumulator unchanged. -/
theorem getAttr_foldl_skip (l : List (String × String)) (k : String)
    (acc : Option String) (h : k ∉ l.map Prod.fst) :
    l.foldl (fun acc a => if a.1 == k then some a.2 else acc) acc = acc := by
  induction l generalizing acc with
  | nil => rfl
  | cons a tl ih =>
    simp only [List.map_cons, List.mem_cons] at h
    push_neg at h
    rw [List.foldl_cons, if_neg (by simpa using fun e => h.1 e.symm)]
    exact ih acc h.2

/-- C3 counterexample: a loading button whose remaining props carry
`aria-busy="false"` renders with `aria-busy="false"`, because the source
spreads `{...props}` after its own `aria-busy="true"` entry and the later
spread wins. -/
theorem button_ariaBusy_counterexample :
    buttonPropsAriaOverride.loading = true ∧
    getAttr (renderButton buttonPropsAriaOverride).attrs "aria-busy" = some "false" ∧
    getAttr (renderButton buttonPropsAriaOverride).attrs "aria-busy" ≠ some "true" := by
  refine ⟨rfl, ?_, ?_⟩ <;> decide

/-- C3 (amended): with `loading = true` the icon slot on the configured side
always shows the loader (with the button's icon size/color), the other slot
is empty, a supplied icon element is never rendered, and — provided the
remaining spread props do not themselves carry an `aria-busy` attribute,
which would override it — the button carries `aria-busy="true"`. -/
theorem button_loading_render (p : ButtonProps) (h : p.loading = true) :
    ((p.iconPosition = IconPosition.left →
        (renderButton p).leftIcon = some (RenderedIcon.loader p.iconSize p.iconColor) ∧
        (renderButton p).rightIcon = none) ∧
     (p.iconPosition = IconPosition.right →
        (renderButton p).rightIcon = some (RenderedIcon.loader p.iconSize p.iconColor) ∧
        (renderButton p).leftIcon = none)) ∧
    (∀ i, (renderButton p).leftIcon ≠ some (RenderedIcon.custom i) ∧
          (renderButton p).rightIcon ≠ some (RenderedIcon.custom i)) ∧
    ("aria-busy" ∉ p.rest.map Prod.fst →
        getAttr (renderButton p).attrs "aria-busy" = some "true") := by
  have hattr : "aria-busy" ∉ p.rest.map Prod.fst →
      getAttr (renderButton p).attrs "aria-busy" = some "true" := by
    intro hk
    unfold renderButton getAttr
    rw [h]
    simp only [Bool.or_true, if_pos rfl, List.append_assoc, List.foldl_append]
    rw [getAttr_foldl_skip p.rest "aria-busy" _ hk]
    rfl
  refine ⟨⟨?_, ?_⟩, ?_, hattr⟩
  · intro hpos
    unfold renderButton renderIcon
    rw [h, hpos]
    simp
  · intro hpos
    unfold renderButton renderIcon
    rw [h, hpos]
    simp
  · intro i
    unfold renderButton renderIcon
    rw [h]
    cases p.iconPosition <;> simp

/-- Witness for C3 at a concrete loading button with a supplied icon. -/
theorem button_loading_render_witness :
    (renderButton buttonPropsPlain).leftIcon = some (RenderedIcon.loader 18 none) ∧
    (renderButton buttonPropsPlain).rightIcon = none ∧
    getAttr (renderButton buttonPropsPlain).attrs "aria-busy" = some "true" := by
  have h := button_loading_render buttonPropsPlain rfl
  exact ⟨(h.1.1 rfl).1, (h.1.1 rfl).2, h.2.2 (by decide)⟩

/-- C7 counterexample: the literal color "#ff0000" is not passed through
unchanged; `getColorVariable` wraps it as a CSS variable reference. -/
theorem getColorVariable_literal_counterexample :
    getColorVariable "#ff0000" = "var(--color-#ff0000)" ∧
    getColorVariable "#ff0000" ≠ "#ff0000" := by
  constructor <;> decide

/-- C7 (amended): every palette token other than "currentColor" resolves —
both through `getColorVariable` and through `BaseIcon`'s color handling — to
the CSS variable reference `var(--color-<token>)`; the palette token
"currentColor" (and only that literal) passes through unchanged; other
literal color values are wrapped as `var(--color-...)` as well, except that
`BaseIcon` leaves strings already starting with `var(` as they are. -/
theorem getColorVariable_palette (t : String) (h : t ∈ AVAILABLE_COLORS) :
    (t ≠ "currentColor" →
        getColorVariable t = "var(--color-" ++ t ++ ")" ∧
        baseIconResolvedColor t = "var(--color-" ++ t ++ ")") ∧
    (t = "currentColor" →
        getColorVariable t = "currentColor" ∧
        baseIconResolvedColor t = "currentColor") := by
  fin_cases h <;> decide

/-- Witness for C7 at the palette token "azure-500" and at "currentColor". -/
theorem getColorVariable_palette_witness :
    getColorVariable "azure-500" = "var(--color-azure-500)" ∧
    baseIconResolvedColor "azure-500" = "var(--color-azure-500)" ∧
    getColorVariable "currentColor" = "currentColor" := by
  have h1 := getColorVariable_palette "azure-500" (by decide)
  have h2 := getColorVariable_palette "currentColor" (by decide)
  exact ⟨(h1.1 (by decide)).1, (h1.1 (by decide)).2, (h2.2 rfl).1⟩
